import Mathlib

/-!
Shallow embedding of `pkg/log/zap/flags.go` from the operator-sdk zap
logging flag package.

The file models the four flag option values (`encoderValue`, `levelValue`,
`sampleValue`, `timeformatValue`) and the encoder resolvers
(`jsonEncoder`, `consoleEncoder`).  Go methods mutating a receiver are
modelled as functions returning the new receiver state together with an
`Option GoError` (`none` = the Go method returned `nil`).  Machine
integers: Go `int` is 64-bit (`strconv.Atoi` range-checks against it) and
`zapcore.Level` is an `int8`; both are modelled as `Int` with explicit
wrapping/range checks.
-/

/-- A Go `error` value, identified by its message string. -/
abbrev GoError := String

/-- Conversion of a Go integer to `int8` (two's-complement truncation to
the low 8 bits), as performed by `zapcore.Level(int8(lvl))`. -/
def int8ofInt (n : Int) : Int :=
  (n + 128).emod 256 - 128

/-- ASCII model of Go `strings.ToLower` (all inputs relevant here are
ASCII; `Char.toLower` lowers exactly the range A-Z). -/
def goToLower (s : String) : String :=
  String.mk (s.data.map Char.toLower)

/-- Decimal digit accumulation used by `goAtoi`: consumes the remaining
characters, failing on any non-digit. -/
def parseDigitsAux : List Char → Nat → Option Nat
  | [], acc => some acc
  | c :: cs, acc =>
      if c.isDigit then parseDigitsAux cs (acc * 10 + (c.toNat - 48)) else none

/-- Model of Go `strconv.Atoi` (= `ParseInt(s, 10, 0)` with 64-bit
`int`): an optional single leading sign, then at least one decimal
digit, and the value must fit in `int64`; `none` models a non-`nil`
error (syntax or range). -/
def goAtoi (s : String) : Option Int :=
  let cs := s.toList
  let signed : Bool × List Char :=
    match cs with
    | '-' :: rest => (true, rest)
    | '+' :: rest => (false, rest)
    | _ => (false, cs)
  match signed.2 with
  | [] => none
  | ds =>
      match parseDigitsAux ds 0 with
      | none => none
      | some n =>
          let v : Int := if signed.1 then -(n : Int) else (n : Int)
          if v < -(2 ^ 63) ∨ 2 ^ 63 - 1 < v then none else some v

/-- Model of Go `strconv.ParseBool`: the exact set of literals it
accepts, `none` for everything else. -/
def goParseBool (s : String) : Option Bool :=
  if s = "1" ∨ s = "t" ∨ s = "T" ∨ s = "TRUE" ∨ s = "true" ∨ s = "True" then
    some true
  else if s = "0" ∨ s = "f" ∨ s = "F" ∨ s = "FALSE" ∨ s = "false" ∨ s = "False" then
    some false
  else none

/-- Decimal rendering of a Go integer, as produced by
`fmt.Sprintf` with the `%d`/`%v` verbs. -/
def goIntToString (n : Int) : String :=
  if n < 0 then "-" ++ Nat.repr n.natAbs else Nat.repr n.natAbs

/-- The time-encoding function slot of a zap encoder configuration.  The
external library's baseline choices are opaque tokens: the production
config and the development config each carry their own default, and the
flag code may override the slot with the ISO-8601 encoder. -/
inductive TimeEncoderFn
  | prodDefault
  | devDefault
  | iso8601
deriving DecidableEq, Repr

/-- The fragment of `zapcore.EncoderConfig` the flag code touches. -/
structure EncoderConfig where
  encodeTime : TimeEncoderFn
deriving DecidableEq, Repr

/-- `zap.NewProductionEncoderConfig()`: baseline config for the json
encoder (opaque production default time encoding). -/
def NewProductionEncoderConfig : EncoderConfig :=
  { encodeTime := .prodDefault }

/-- `zap.NewDevelopmentEncoderConfig()`: baseline config for the console
encoder (opaque development default time encoding). -/
def NewDevelopmentEncoderConfig : EncoderConfig :=
  { encodeTime := .devDefault }

/-- A constructed `zapcore.Encoder`: a JSON or console encoder carrying
the configuration it was built from. -/
inductive Encoder
  | json (cfg : EncoderConfig)
  | console (cfg : EncoderConfig)
deriving DecidableEq, Repr

/-- The time-encoding function a constructed encoder uses. -/
def Encoder.timeEncoder : Encoder → TimeEncoderFn
  | .json cfg => cfg.encodeTime
  | .console cfg => cfg.encodeTime

/-- The `timeformatValue` struct: `set` marker and the stored format
string (Go zero value: `false`, `""`). -/
structure timeformatValue where
  set : Bool
  str : String
deriving DecidableEq, Repr

/-- `timeformatValue.Set`: marks the value set; input longer than one
byte must be exactly `"unix"` or `"iso8601"`, otherwise an error; input
of at most one byte resolves to `"unix"`. -/
def timeformatValue.Set (v : timeformatValue) (s : String) :
    timeformatValue × Option GoError :=
  let v := { v with set := true }
  if 1 < s.utf8ByteSize then
    if s = "unix" ∨ s = "iso8601" then
      ({ v with str := s }, none)
    else
      (v, some ("unknown timeformat \"" ++ s ++ "\""))
  else
    ({ v with str := "unix" }, none)

/-- `timeformatValue.String()`. -/
def timeformatValue.String (v : timeformatValue) : String :=
  v.str

/-- `timeformatValue.IsBoolFlag()`. -/
def timeformatValue.IsBoolFlag (_ : timeformatValue) : Bool :=
  false

/-- `jsonEncoder()`: builds a JSON encoder from the production baseline,
overriding the time encoder with ISO-8601 when the global timeformat
value currently reads `"iso8601"`.  The global `timeformatVal` read is
made explicit as the `tf` argument. -/
def jsonEncoder (tf : timeformatValue) : Encoder :=
  let encoderConfig := NewProductionEncoderConfig
  let encoderConfig :=
    if tf.String = "iso8601" then
      { encoderConfig with encodeTime := .iso8601 }
    else encoderConfig
  .json encoderConfig

/-- `consoleEncoder()`: builds a console encoder from the development
baseline, overriding the time encoder with ISO-8601 when the global
timeformat value currently reads `"iso8601"`. -/
def consoleEncoder (tf : timeformatValue) : Encoder :=
  let encoderConfig := NewDevelopmentEncoderConfig
  let encoderConfig :=
    if tf.String = "iso8601" then
      { encoderConfig with encodeTime := .iso8601 }
    else encoderConfig
  .console encoderConfig

/-- The `encoderValue` struct (Go zero value: `false`, nil encoder
modelled as `none`, `""`). -/
structure encoderValue where
  set : Bool
  encoder : Option Encoder
  str : String
deriving DecidableEq, Repr

/-- `encoderValue.Set`: marks the value set, then builds and stores the
selected encoder (reading the current timeformat value `tf`) and records
the string, or errors on an unknown name. -/
def encoderValue.Set (tf : timeformatValue) (v : encoderValue) (e : String) :
    encoderValue × Option GoError :=
  let v := { v with set := true }
  if e = "json" then
    ({ v with encoder := some (jsonEncoder tf), str := e }, none)
  else if e = "console" then
    ({ v with encoder := some (consoleEncoder tf), str := e }, none)
  else
    (v, some ("unknown encoder \"" ++ e ++ "\""))

/-- `encoderValue.String()`. -/
def encoderValue.String (v : encoderValue) : String :=
  v.str

/-- The `levelValue` struct: `set` marker and the stored
`zapcore.Level` (an `int8`, Go zero value `0`). -/
structure levelValue where
  set : Bool
  level : Int
deriving DecidableEq, Repr

/-- Result of `levelValue.Set`: the new receiver, the state of the
secondary (klog) verbosity facility, and the returned error. -/
structure LevelSetResult (σ : Type) where
  v : levelValue
  klog : σ
  err : Option GoError
deriving DecidableEq, Repr

/-- `levelValue.Set`, generic over the secondary verbosity facility:
`kset` models `klog.InitFlags(fs); fs.Set("v", itoa(-1*lvl))` on klog
state `σ` and may fail.  Lower-cases the input; named levels map to
-1/0/2; anything else must parse as a positive integer `i`, giving
`lvl = -i`; the level field stores `int8(lvl)`; when `lvl < -3` the
secondary facility is set to `-1*lvl` and its error, if any, is
returned. -/
def levelValue.SetWith {σ : Type} (kset : σ → Int → Except GoError σ)
    (v : levelValue) (ks : σ) (l : String) : LevelSetResult σ :=
  let v := { v with set := true }
  let lower := goToLower l
  let lvlRes : Except GoError Int :=
    if lower = "debug" then .ok (-1)
    else if lower = "info" then .ok 0
    else if lower = "error" then .ok 2
    else
      match goAtoi lower with
      | none => .error ("invalid log level \"" ++ l ++ "\"")
      | some i =>
          if 0 < i then .ok (-1 * i)
          else .error ("invalid log level \"" ++ l ++ "\"")
  match lvlRes with
  | .error e => ⟨v, ks, some e⟩
  | .ok lvl =>
      let v := { v with level := int8ofInt lvl }
      if lvl < -3 then
        match kset ks (-1 * lvl) with
        | .error e => ⟨v, ks, some e⟩
        | .ok ks => ⟨v, ks, none⟩
      else ⟨v, ks, none⟩

/-- The concrete secondary facility: klog's `v` flag parses the decimal
rendering of the requested verbosity, which always succeeds for an
in-range Go integer, and stores it. -/
def klogVSet (_ : Int) (n : Int) : Except GoError Int :=
  .ok n

/-- `levelValue.Set` against the concrete klog facility (klog state is
its current verbosity integer). -/
def levelValue.Set (v : levelValue) (ks : Int) (l : String) :
    LevelSetResult Int :=
  levelValue.SetWith klogVSet v ks l

/-- Model of `zapcore.Level.String()`: named forms for levels -1..5,
otherwise `Level(<d>)`. -/
def zapcoreLevelString (l : Int) : String :=
  if l = -1 then "debug"
  else if l = 0 then "info"
  else if l = 1 then "warn"
  else if l = 2 then "error"
  else if l = 3 then "dpanic"
  else if l = 4 then "panic"
  else if l = 5 then "fatal"
  else "Level(" ++ goIntToString l ++ ")"

/-- `levelValue.String()`: delegates to `zapcore.Level.String()`. -/
def levelValue.String (v : levelValue) : String :=
  zapcoreLevelString v.level

/-- The `sampleValue` struct (Go zero value: `false`, `false`). -/
structure sampleValue where
  set : Bool
  sample : Bool
deriving DecidableEq, Repr

/-- `sampleValue.Set`: marks the value set, then assigns both the parsed
boolean and the error from `strconv.ParseBool` (which yields `false`
together with the error on bad input, so the field is overwritten either
way). -/
def sampleValue.Set (v : sampleValue) (s : String) :
    sampleValue × Option GoError :=
  let v := { v with set := true }
  match goParseBool s with
  | some b => ({ v with sample := b }, none)
  | none =>
      ({ v with sample := false },
        some ("strconv.ParseBool: parsing \"" ++ s ++ "\": invalid syntax"))

/-- `sampleValue.String()`. -/
def sampleValue.String (v : sampleValue) : String :=
  if v.sample then "true" else "false"

/-- `sampleValue.IsBoolFlag()`. -/
def sampleValue.IsBoolFlag (_ : sampleValue) : Bool :=
  true

/-! ### Helper lemmas -/

theorem encoderValue_Set_marks_set (tf : timeformatValue) (v : encoderValue)
    (e : String) : ((encoderValue.Set tf v e).1).set = true := by
  unfold encoderValue.Set
  split
  · rfl
  · split <;> rfl

theorem levelValue_SetWith_marks_set {σ : Type}
    (kset : σ → Int → Except GoError σ) (v : levelValue) (ks : σ)
    (l : String) : ((levelValue.SetWith kset v ks l).v).set = true := by
  simp only [levelValue.SetWith]
  split
  · rfl
  · split
    · split <;> rfl
    · rfl

theorem sampleValue_Set_marks_set (v : sampleValue) (s : String) :
    ((sampleValue.Set v s).1).set = true := by
  unfold sampleValue.Set
  split <;> rfl

theorem timeformatValue_Set_marks_set (v : timeformatValue) (s : String) :
    ((timeformatValue.Set v s).1).set = true := by
  unfold timeformatValue.Set
  split
  · split <;> rfl
  · rfl

/-! ### Claim theorems -/

/-- C7: `encoderValue.Set` succeeds exactly on `"json"` and `"console"`
(case-sensitively), after which `String()` returns the same string; every
other input fails with the unknown-encoder error. -/
theorem C7_encoder_set_grammar (tf : timeformatValue) (v : encoderValue)
    (s : String) :
    ((s = "json" ∨ s = "console") →
        (encoderValue.Set tf v s).2 = none ∧
        encoderValue.String (encoderValue.Set tf v s).1 = s) ∧
    (s ≠ "json" → s ≠ "console" →
        (encoderValue.Set tf v s).2 =
          some ("unknown encoder \"" ++ s ++ "\"")) := by
  constructor
  · rintro (rfl | rfl) <;> exact ⟨rfl, rfl⟩
  · intro h1 h2
    simp only [encoderValue.Set, if_neg h1, if_neg h2]

/-- C7 witness: `Set("json")` succeeds with `String() = "json"` and
`Set("JSON")` fails. -/
theorem C7_encoder_set_grammar_witness :
    ((encoderValue.Set ⟨false, ""⟩ ⟨false, none, ""⟩ "json").2 = none ∧
      encoderValue.String
        (encoderValue.Set ⟨false, ""⟩ ⟨false, none, ""⟩ "json").1 = "json") ∧
    (encoderValue.Set ⟨false, ""⟩ ⟨false, none, ""⟩ "JSON").2 =
      some ("unknown encoder \"JSON\"") :=
  ⟨(C7_encoder_set_grammar ⟨false, ""⟩ ⟨false, none, ""⟩ "json").1
      (Or.inl rfl),
    (C7_encoder_set_grammar ⟨false, ""⟩ ⟨false, none, ""⟩ "JSON").2
      (by decide) (by decide)⟩

/-- C8: `timeformatValue.Set` on input longer than one byte succeeds
exactly on `"unix"` and `"iso8601"` (case-sensitively, storing the
input); on input of at most one byte it succeeds and stores `"unix"`. -/
theorem C8_timeformat_set_grammar (v : timeformatValue) (s : String) :
    (1 < s.utf8ByteSize →
        ((s = "unix" ∨ s = "iso8601") →
            (timeformatValue.Set v s).2 = none ∧
            (timeformatValue.Set v s).1.str = s) ∧
        (s ≠ "unix" → s ≠ "iso8601" →
            (timeformatValue.Set v s).2 =
              some ("unknown timeformat \"" ++ s ++ "\""))) ∧
    (s.utf8ByteSize ≤ 1 →
        (timeformatValue.Set v s).2 = none ∧
        (timeformatValue.Set v s).1.str = "unix") := by
  constructor
  · intro hlen
    constructor
    · intro hs
      simp [timeformatValue.Set, if_pos hlen, if_pos hs]
    · intro h1 h2
      have hns : ¬(s = "unix" ∨ s = "iso8601") := by
        rintro (rfl | rfl) <;> simp at h1 h2
      simp only [timeformatValue.Set, if_pos hlen, if_neg hns]
  · intro hlen
    have h2 : ¬(1 < s.utf8ByteSize) := by omega
    simp [timeformatValue.Set, if_neg h2]

/-- C8 witness: `Set("")` and `Set("u")` store `"unix"`,
`Set("iso8601")` stores `"iso8601"`, `Set("ISO8601")` fails. -/
theorem C8_timeformat_set_grammar_witness :
    ((timeformatValue.Set ⟨false, ""⟩ "").2 = none ∧
      (timeformatValue.Set ⟨false, ""⟩ "").1.str = "unix") ∧
    ((timeformatValue.Set ⟨false, ""⟩ "u").2 = none ∧
      (timeformatValue.Set ⟨false, ""⟩ "u").1.str = "unix") ∧
    ((timeformatValue.Set ⟨false, ""⟩ "iso8601").2 = none ∧
      (timeformatValue.Set ⟨false, ""⟩ "iso8601").1.str = "iso8601") ∧
    (timeformatValue.Set ⟨false, ""⟩ "ISO8601").2 =
      some ("unknown timeformat \"ISO8601\"") :=
  ⟨(C8_timeformat_set_grammar ⟨false, ""⟩ "").2 (by decide),
    (C8_timeformat_set_grammar ⟨false, ""⟩ "u").2 (by decide),
    ((C8_timeformat_set_grammar ⟨false, ""⟩ "iso8601").1 (by decide)).1
      (Or.inr rfl),
    ((C8_timeformat_set_grammar ⟨false, ""⟩ "ISO8601").1 (by decide)).2
      (by decide) (by decide)⟩

/-- C9: `sampleValue.Set` succeeds exactly on the literals of standard
boolean parsing, storing the parsed boolean (`"true"`/`"1"` give `true`,
`"false"`/`"0"` give `false`, `"yes"` fails); `sampleValue` declares
itself a boolean-style flag and `timeformatValue` does not. -/
theorem C9_sample_set_bool (v : sampleValue) (s : String) :
    ((sampleValue.Set v s).2 = none ↔ (goParseBool s).isSome = true) ∧
    (goParseBool s = some true → (sampleValue.Set v s).1.sample = true) ∧
    (goParseBool s = some false → (sampleValue.Set v s).1.sample = false) ∧
    sampleValue.IsBoolFlag v = true ∧
    (∀ tv : timeformatValue, timeformatValue.IsBoolFlag tv = false) := by
  refine ⟨?_, ?_, ?_, rfl, fun _ => rfl⟩
  · unfold sampleValue.Set
    cases h : goParseBool s <;> simp [h]
  · intro h
    unfold sampleValue.Set
    rw [h]
  · intro h
    unfold sampleValue.Set
    rw [h]

/-- C9 witness: the five concrete inputs of the claim, plus the two
`IsBoolFlag` declarations. -/
theorem C9_sample_set_bool_witness :
    (sampleValue.Set ⟨false, false⟩ "true").1.sample = true ∧
    (sampleValue.Set ⟨false, false⟩ "1").1.sample = true ∧
    (sampleValue.Set ⟨false, true⟩ "false").1.sample = false ∧
    (sampleValue.Set ⟨false, true⟩ "0").1.sample = false ∧
    ¬((sampleValue.Set ⟨false, false⟩ "yes").2 = none) ∧
    sampleValue.IsBoolFlag ⟨false, false⟩ = true ∧
    timeformatValue.IsBoolFlag ⟨false, ""⟩ = false := by
  refine ⟨(C9_sample_set_bool ⟨false, false⟩ "true").2.1 (by decide),
    (C9_sample_set_bool ⟨false, false⟩ "1").2.1 (by decide),
    (C9_sample_set_bool ⟨false, true⟩ "false").2.2.1 (by decide),
    (C9_sample_set_bool ⟨false, true⟩ "0").2.2.1 (by decide),
    fun h => ?_,
    (C9_sample_set_bool ⟨false, false⟩ "x").2.2.2.1,
    (C9_sample_set_bool ⟨false, false⟩ "x").2.2.2.2 ⟨false, ""⟩⟩
  have := ((C9_sample_set_bool ⟨false, false⟩ "yes").1).mp h
  simp [goParseBool] at this

/-- C10: every variant's `Set` marks the option as set on every input,
before any validation, so `set` is `true` afterwards even when an error
is returned (for `levelValue` this holds for an arbitrary secondary
facility, failing or not). -/
theorem C10_set_marked_before_validation (s : String) :
    (∀ (tf : timeformatValue) (v : encoderValue),
        ((encoderValue.Set tf v s).1).set = true) ∧
    (∀ (σ : Type) (kset : σ → Int → Except GoError σ)
        (v : levelValue) (ks : σ),
        ((levelValue.SetWith kset v ks s).v).set = true) ∧
    (∀ v : sampleValue, ((sampleValue.Set v s).1).set = true) ∧
    (∀ v : timeformatValue, ((timeformatValue.Set v s).1).set = true) :=
  ⟨fun tf v => encoderValue_Set_marks_set tf v s,
    fun _ kset v ks => levelValue_SetWith_marks_set kset v ks s,
    fun v => sampleValue_Set_marks_set v s,
    fun v => timeformatValue_Set_marks_set v s⟩

/-- C1: `levelValue.Set` lower-cases its input; the named levels store
severities -1/0/2 with no error; any other input is parsed as an
integer, failing with the invalid-log-level error when the parse fails
or the parsed integer is ≤ 0; in particular `"0"`, `"-3"` and `"abc"`
all fail. -/
theorem C1_level_set_grammar (l : String) (v : levelValue) (ks : Int) :
    (goToLower l = "debug" →
        (levelValue.Set v ks l).v.level = -1 ∧
        (levelValue.Set v ks l).err = none) ∧
    (goToLower l = "info" →
        (levelValue.Set v ks l).v.level = 0 ∧
        (levelValue.Set v ks l).err = none) ∧
    (goToLower l = "error" →
        (levelValue.Set v ks l).v.level = 2 ∧
        (levelValue.Set v ks l).err = none) ∧
    (goToLower l ≠ "debug" → goToLower l ≠ "info" → goToLower l ≠ "error" →
        (goAtoi (goToLower l) = none →
            (levelValue.Set v ks l).err =
              some ("invalid log level \"" ++ l ++ "\"")) ∧
        (∀ i : Int, goAtoi (goToLower l) = some i → i ≤ 0 →
            (levelValue.Set v ks l).err =
              some ("invalid log level \"" ++ l ++ "\""))) ∧
    (levelValue.Set v ks "0").err = some "invalid log level \"0\"" ∧
    (levelValue.Set v ks "-3").err = some "invalid log level \"-3\"" ∧
    (levelValue.Set v ks "abc").err = some "invalid log level \"abc\"" := by
  refine ⟨?_, ?_, ?_, ?_, rfl, rfl, rfl⟩
  · intro h
    unfold levelValue.Set levelValue.SetWith
    rw [h]
    norm_num [int8ofInt, klogVSet]
  · intro h
    unfold levelValue.Set levelValue.SetWith
    rw [h]
    norm_num [int8ofInt, klogVSet,
      show ¬("info" : String) = "debug" from by decide]
  · intro h
    unfold levelValue.Set levelValue.SetWith
    rw [h]
    norm_num [int8ofInt, klogVSet,
      show ¬("error" : String) = "debug" from by decide,
      show ¬("error" : String) = "info" from by decide]
  · intro h1 h2 h3
    constructor
    · intro hA
      unfold levelValue.Set levelValue.SetWith
      simp only [if_neg h1, if_neg h2, if_neg h3, hA]
    · intro i hA hi
      have hni : ¬(0 < i) := by omega
      unfold levelValue.Set levelValue.SetWith
      simp only [if_neg h1, if_neg h2, if_neg h3, hA, if_neg hni]

/-- C1 witness: the named levels (including an upper-case spelling) and
the three failing inputs of the claim. -/
theorem C1_level_set_grammar_witness :
    ((levelValue.Set ⟨false, 0⟩ 0 "DEBUG").v.level = -1 ∧
      (levelValue.Set ⟨false, 0⟩ 0 "DEBUG").err = none) ∧
    ((levelValue.Set ⟨false, 0⟩ 0 "info").v.level = 0 ∧
      (levelValue.Set ⟨false, 0⟩ 0 "info").err = none) ∧
    ((levelValue.Set ⟨false, 0⟩ 0 "error").v.level = 2 ∧
      (levelValue.Set ⟨false, 0⟩ 0 "error").err = none) ∧
    (levelValue.Set ⟨false, 0⟩ 0 "abc").err =
      some "invalid log level \"abc\"" ∧
    (levelValue.Set ⟨false, 0⟩ 0 "0").err = some "invalid log level \"0\"" ∧
    (levelValue.Set ⟨false, 0⟩ 0 "-3").err =
      some "invalid log level \"-3\"" :=
  ⟨(C1_level_set_grammar "DEBUG" ⟨false, 0⟩ 0).1 (by decide),
    (C1_level_set_grammar "info" ⟨false, 0⟩ 0).2.1 (by decide),
    (C1_level_set_grammar "error" ⟨false, 0⟩ 0).2.2.1 (by decide),
    ((C1_level_set_grammar "abc" ⟨false, 0⟩ 0).2.2.2.1 (by decide)
        (by decide) (by decide)).1 (by decide),
    (C1_level_set_grammar "0" ⟨false, 0⟩ 0).2.2.2.2.1,
    (C1_level_set_grammar "-3" ⟨false, 0⟩ 0).2.2.2.2.2.1⟩

/-- C2: the secondary (klog) verbosity is escalated exactly when the
parsed integer `i` exceeds 3 (severity `-i < -3`), and then it is set to
the magnitude `i`; parses with `0 < i ≤ 3` and the named levels leave
the secondary facility untouched; a failure of the secondary facility is
returned as the `Set` error. -/
theorem C2_level_escalation :
    (∀ (l : String) (v : levelValue) (ks i : Int),
        goToLower l ≠ "debug" → goToLower l ≠ "info" → goToLower l ≠ "error" →
        goAtoi (goToLower l) = some i → 0 < i →
        (levelValue.Set v ks l).klog = (if 3 < i then i else ks) ∧
        (levelValue.Set v ks l).err = none) ∧
    (∀ (l : String) (v : levelValue) (ks : Int),
        (goToLower l = "debug" ∨ goToLower l = "info" ∨ goToLower l = "error") →
        (levelValue.Set v ks l).klog = ks ∧
        (levelValue.Set v ks l).err = none) ∧
    (∀ (σ : Type) (kset : σ → Int → Except GoError σ) (l : String)
        (v : levelValue) (ks : σ) (i : Int) (e : GoError),
        goToLower l ≠ "debug" → goToLower l ≠ "info" → goToLower l ≠ "error" →
        goAtoi (goToLower l) = some i → 3 < i →
        kset ks i = .error e →
        (levelValue.SetWith kset v ks l).err = some e) := by
  refine ⟨?_, ?_, ?_⟩
  · intro l v ks i h1 h2 h3 h4 h5
    unfold levelValue.Set levelValue.SetWith
    simp only [if_neg h1, if_neg h2, if_neg h3, h4, if_pos h5, klogVSet]
    by_cases h6 : 3 < i
    · have h7 : -1 * i < -3 := by omega
      simp only [if_pos h6, if_pos h7]
      refine ⟨?_, trivial⟩
      show -1 * (-1 * i) = i
      ring
    · have h7 : ¬(-1 * i < -3) := by omega
      simp only [if_neg h6, if_neg h7]
      exact ⟨trivial, trivial⟩
  · intro l v ks h
    rcases h with h | h | h <;>
      · unfold levelValue.Set levelValue.SetWith
        rw [h]
        norm_num [klogVSet,
          show ¬("info" : String) = "debug" from by decide,
          show ¬("error" : String) = "debug" from by decide,
          show ¬("error" : String) = "info" from by decide]
  · intro σ kset l v ks i e h1 h2 h3 h4 h5 hk
    have h6 : (0 : Int) < i := by omega
    have h7 : -1 * i < -3 := by omega
    have h8 : -1 * (-1 * i) = i := by ring
    unfold levelValue.SetWith
    simp only [if_neg h1, if_neg h2, if_neg h3, h4, if_pos h6, if_pos h7,
      h8, hk]

/-- C2 witness: inputs `"3"` and `"debug"` leave the secondary verbosity
at 0, input `"4"` raises it to 4, and a failing secondary facility's
error is returned. -/
theorem C2_level_escalation_witness :
    ((levelValue.Set ⟨false, 0⟩ 0 "3").klog = 0 ∧
      (levelValue.Set ⟨false, 0⟩ 0 "3").err = none) ∧
    ((levelValue.Set ⟨false, 0⟩ 0 "4").klog = 4 ∧
      (levelValue.Set ⟨false, 0⟩ 0 "4").err = none) ∧
    ((levelValue.Set ⟨false, 0⟩ 0 "debug").klog = 0 ∧
      (levelValue.Set ⟨false, 0⟩ 0 "debug").err = none) ∧
    (levelValue.SetWith (fun _ _ => .error "klog failure") ⟨false, 0⟩
        (0 : Int) "5").err = some "klog failure" := by
  refine ⟨?_, ?_, ?_, ?_⟩
  · have h := C2_level_escalation.1 "3" ⟨false, 0⟩ 0 3 (by decide)
      (by decide) (by decide) (by decide) (by decide)
    simpa using h
  · have h := C2_level_escalation.1 "4" ⟨false, 0⟩ 0 4 (by decide)
      (by decide) (by decide) (by decide) (by decide)
    simpa using h
  · exact C2_level_escalation.2.1 "debug" ⟨false, 0⟩ 0 (Or.inl (by decide))
  · exact C2_level_escalation.2.2 Int (fun _ _ => .error "klog failure")
      "5" ⟨false, 0⟩ 0 5 "klog failure" (by decide) (by decide) (by decide)
      (by decide) (by decide) rfl

/-- C3 counterexample: `Set("300")` succeeds but stores severity -44
(the int8 truncation of -300), not -300. -/
theorem C3_counterexample :
    (levelValue.Set ⟨false, 0⟩ 0 "300").err = none ∧
    (levelValue.Set ⟨false, 0⟩ 0 "300").v.level = -44 ∧
    ¬((levelValue.Set ⟨false, 0⟩ 0 "300").v.level = -300) := by
  refine ⟨rfl, rfl, ?_⟩
  decide

/-- C3 (amended): for every successfully parsed positive integer `i`,
the stored severity is the int8 truncation of `-i`; it equals `-i`
exactly for magnitudes up to 128. -/
theorem C3_level_severity_int8 (l : String) (v : levelValue) (ks i : Int)
    (h1 : goToLower l ≠ "debug") (h2 : goToLower l ≠ "info")
    (h3 : goToLower l ≠ "error") (h4 : goAtoi (goToLower l) = some i)
    (h5 : 0 < i) :
    (levelValue.Set v ks l).v.level = int8ofInt (-i) ∧
    (i ≤ 128 → (levelValue.Set v ks l).v.level = -i) := by
  have key : (levelValue.Set v ks l).v.level = int8ofInt (-i) := by
    unfold levelValue.Set levelValue.SetWith
    simp only [if_neg h1, if_neg h2, if_neg h3, h4, if_pos h5, klogVSet]
    have h8 : -1 * i = -i := by ring
    rw [h8]
    by_cases h6 : -i < -3
    · simp only [if_pos h6]
    · simp only [if_neg h6]
  refine ⟨key, fun h7 => ?_⟩
  rw [key]
  unfold int8ofInt
  have h9 : (-i + 128).emod 256 = -i + 128 :=
    Int.emod_eq_of_lt (by omega) (by omega)
  rw [h9]
  ring

/-- C3 witness: `Set("5")` stores exactly -5. -/
theorem C3_level_severity_int8_witness :
    (levelValue.Set ⟨false, 0⟩ 0 "5").v.level =
      int8ofInt (-5) ∧
    (levelValue.Set ⟨false, 0⟩ 0 "5").v.level = -5 := by
  have h := C3_level_severity_int8 "5" ⟨false, 0⟩ 0 5 (by decide)
    (by decide) (by decide) (by decide) (by decide)
  exact ⟨h.1, h.2 (by decide)⟩

/-- C4 counterexample: a failing `encoderValue.Set` still mutates the
option — the `set` field flips from `false` to `true`, so the prior
state is not left untouched. -/
theorem C4_counterexample :
    (encoderValue.Set ⟨false, ""⟩ ⟨false, none, ""⟩ "bogus").2 ≠ none ∧
    (encoderValue.Set ⟨false, ""⟩ ⟨false, none, ""⟩ "bogus").1 ≠
      (⟨false, none, ""⟩ : encoderValue) := by
  decide

/-- C4 (amended): a failing `Set` leaves every field except `set`
untouched (`set` becomes true), for the encoder, level (whose secondary
verbosity also stays put) and timeformat options; the sample option
additionally overwrites `sample` with `false` on failure. -/
theorem C4_failing_set_state (s : String) :
    (∀ (tf : timeformatValue) (v : encoderValue),
        (encoderValue.Set tf v s).2 ≠ none →
        (encoderValue.Set tf v s).1 = { v with set := true }) ∧
    (∀ (v : levelValue) (ks : Int),
        (levelValue.Set v ks s).err ≠ none →
        (levelValue.Set v ks s).v = { v with set := true } ∧
        (levelValue.Set v ks s).klog = ks) ∧
    (∀ v : timeformatValue,
        (timeformatValue.Set v s).2 ≠ none →
        (timeformatValue.Set v s).1 = { v with set := true }) ∧
    (∀ v : sampleValue,
        (sampleValue.Set v s).2 ≠ none →
        (sampleValue.Set v s).1 = { v with set := true, sample := false }) := by
  refine ⟨?_, ?_, ?_, ?_⟩
  · intro tf v h
    by_cases h1 : s = "json"
    · exfalso; apply h; simp [encoderValue.Set, h1]
    · by_cases h2 : s = "console"
      · exfalso; apply h; simp [encoderValue.Set, if_neg h1, h2]
      · simp [encoderValue.Set, if_neg h1, if_neg h2]
  · intro v ks h
    unfold levelValue.Set levelValue.SetWith at h ⊢
    by_cases h1 : goToLower s = "debug"
    · rw [h1] at h; norm_num [klogVSet] at h
    · by_cases h2 : goToLower s = "info"
      · rw [h2] at h
        norm_num [klogVSet,
          show ¬("info" : String) = "debug" from by decide] at h
      · by_cases h3 : goToLower s = "error"
        · rw [h3] at h
          norm_num [klogVSet,
            show ¬("error" : String) = "debug" from by decide,
            show ¬("error" : String) = "info" from by decide] at h
        · cases hA : goAtoi (goToLower s) with
          | none =>
            simp only [if_neg h1, if_neg h2, if_neg h3, hA]
            constructor <;> trivial
          | some i =>
            by_cases h5 : 0 < i
            · exfalso
              apply h
              simp only [if_neg h1, if_neg h2, if_neg h3, hA, if_pos h5,
                klogVSet]
              split <;> rfl
            · simp only [if_neg h1, if_neg h2, if_neg h3, hA, if_neg h5]
              constructor <;> trivial
  · intro v h
    simp only [timeformatValue.Set] at h ⊢
    by_cases h1 : 1 < s.utf8ByteSize
    · by_cases h2 : s = "unix" ∨ s = "iso8601"
      · rw [if_pos h1, if_pos h2] at h; simp at h
      · rw [if_pos h1, if_neg h2] at h ⊢
    · rw [if_neg h1] at h; simp at h
  · intro v h
    simp only [sampleValue.Set] at h ⊢
    cases hA : goParseBool s with
    | some b => rw [hA] at h; simp at h
    | none => rfl

/-- C4 witness: concrete failing inputs for all four options, showing
exactly the `set` (and for sample also `sample`) fields change. -/
theorem C4_failing_set_state_witness :
    (encoderValue.Set ⟨false, ""⟩ ⟨false, none, "old"⟩ "bad").1 =
      (⟨true, none, "old"⟩ : encoderValue) ∧
    ((levelValue.Set ⟨false, 7⟩ 9 "abc").v = (⟨true, 7⟩ : levelValue) ∧
      (levelValue.Set ⟨false, 7⟩ 9 "abc").klog = 9) ∧
    (timeformatValue.Set ⟨false, "old"⟩ "bad").1 =
      (⟨true, "old"⟩ : timeformatValue) ∧
    (sampleValue.Set ⟨false, true⟩ "yes").1 = (⟨true, false⟩ : sampleValue) :=
  ⟨(C4_failing_set_state "bad").1 ⟨false, ""⟩ ⟨false, none, "old"⟩
      (by decide),
    (C4_failing_set_state "abc").2.1 ⟨false, 7⟩ 9 (by decide),
    (C4_failing_set_state "bad").2.2.1 ⟨false, "old"⟩ (by decide),
    (C4_failing_set_state "yes").2.2.2 ⟨false, true⟩ (by decide)⟩

theorem level_roundtrip_named (w : levelValue) (ks2 : Int)
    (hset : w.set = true)
    (h : w.level = -1 ∨ w.level = 0 ∨ w.level = 2) :
    (levelValue.Set w ks2 (levelValue.String w)).v = w ∧
    (levelValue.Set w ks2 (levelValue.String w)).err = none := by
  obtain ⟨ws, wl⟩ := w
  simp only at hset h
  subst hset
  rcases h with h | h | h <;> subst h <;> exact ⟨rfl, rfl⟩

/-- C5 counterexample: `levelValue.Set("5")` succeeds, `String()` then
yields the canonical form `"Level(-5)"`, and feeding that back to `Set`
fails, so the round-trip does not hold for every successful `Set`. -/
theorem C5_counterexample :
    (levelValue.Set ⟨false, 0⟩ 0 "5").err = none ∧
    levelValue.String (levelValue.Set ⟨false, 0⟩ 0 "5").v = "Level(-5)" ∧
    (levelValue.Set (levelValue.Set ⟨false, 0⟩ 0 "5").v
        (levelValue.Set ⟨false, 0⟩ 0 "5").klog
        (levelValue.String (levelValue.Set ⟨false, 0⟩ 0 "5").v)).err ≠
      none := by
  refine ⟨rfl, rfl, ?_⟩
  decide

/-- C5 (amended): the round-trip `Set(String())` reproduces an equal
internal state for every successful `Set` of the encoder, sample and
timeformat options, and for the level option exactly when the stored
severity is one of the named values -1, 0, 2 (for other severities the
canonical form `Level(N)` is rejected, see the counterexample). -/
theorem C5_roundtrip (x : String) :
    (∀ (tf : timeformatValue) (v : encoderValue),
        (encoderValue.Set tf v x).2 = none →
        encoderValue.Set tf (encoderValue.Set tf v x).1
            (encoderValue.String (encoderValue.Set tf v x).1) =
          ((encoderValue.Set tf v x).1, none)) ∧
    (∀ v : sampleValue,
        (sampleValue.Set v x).2 = none →
        sampleValue.Set (sampleValue.Set v x).1
            (sampleValue.String (sampleValue.Set v x).1) =
          ((sampleValue.Set v x).1, none)) ∧
    (∀ v : timeformatValue,
        (timeformatValue.Set v x).2 = none →
        timeformatValue.Set (timeformatValue.Set v x).1
            (timeformatValue.String (timeformatValue.Set v x).1) =
          ((timeformatValue.Set v x).1, none)) ∧
    (∀ (v : levelValue) (ks ks2 : Int),
        (levelValue.Set v ks x).err = none →
        ((levelValue.Set v ks x).v.level = -1 ∨
          (levelValue.Set v ks x).v.level = 0 ∨
          (levelValue.Set v ks x).v.level = 2) →
        (levelValue.Set (levelValue.Set v ks x).v ks2
            (levelValue.String (levelValue.Set v ks x).v)).v =
          (levelValue.Set v ks x).v ∧
        (levelValue.Set (levelValue.Set v ks x).v ks2
            (levelValue.String (levelValue.Set v ks x).v)).err = none) := by
  refine ⟨?_, ?_, ?_, ?_⟩
  · intro tf v hx
    by_cases h1 : x = "json"
    · subst h1; rfl
    · by_cases h2 : x = "console"
      · subst h2; rfl
      · exfalso
        simp [encoderValue.Set, if_neg h1, if_neg h2] at hx
  · intro v hx
    cases hA : goParseBool x with
    | none => simp [sampleValue.Set, hA] at hx
    | some b =>
      simp only [sampleValue.Set, hA]
      cases b <;> rfl
  · intro v hx
    simp only [timeformatValue.Set] at hx ⊢
    by_cases h1 : 1 < x.utf8ByteSize
    · by_cases h2 : x = "unix" ∨ x = "iso8601"
      · rcases h2 with rfl | rfl <;> rfl
      · rw [if_pos h1, if_neg h2] at hx; simp at hx
    · rw [if_neg h1]; rfl
  · intro v ks ks2 herr hlvl
    exact level_roundtrip_named (levelValue.Set v ks x).v ks2
      (levelValue_SetWith_marks_set klogVSet v ks x) hlvl

/-- C5 witness: concrete round-trips for `"console"`, `"1"`, `"u"` and
`"info"`. -/
theorem C5_roundtrip_witness :
    encoderValue.Set ⟨false, ""⟩
        (encoderValue.Set ⟨false, ""⟩ ⟨false, none, ""⟩ "console").1
        (encoderValue.String
          (encoderValue.Set ⟨false, ""⟩ ⟨false, none, ""⟩ "console").1) =
      ((encoderValue.Set ⟨false, ""⟩ ⟨false, none, ""⟩ "console").1, none) ∧
    sampleValue.Set (sampleValue.Set ⟨false, false⟩ "1").1
        (sampleValue.String (sampleValue.Set ⟨false, false⟩ "1").1) =
      ((sampleValue.Set ⟨false, false⟩ "1").1, none) ∧
    timeformatValue.Set (timeformatValue.Set ⟨false, ""⟩ "u").1
        (timeformatValue.String (timeformatValue.Set ⟨false, ""⟩ "u").1) =
      ((timeformatValue.Set ⟨false, ""⟩ "u").1, none) ∧
    ((levelValue.Set (levelValue.Set ⟨false, 0⟩ 0 "info").v 0
        (levelValue.String (levelValue.Set ⟨false, 0⟩ 0 "info").v)).v =
      (levelValue.Set ⟨false, 0⟩ 0 "info").v ∧
      (levelValue.Set (levelValue.Set ⟨false, 0⟩ 0 "info").v 0
        (levelValue.String (levelValue.Set ⟨false, 0⟩ 0 "info").v)).err =
      none) :=
  ⟨(C5_roundtrip "console").1 ⟨false, ""⟩ ⟨false, none, ""⟩ (by decide),
    (C5_roundtrip "1").2.1 ⟨false, false⟩ (by decide),
    (C5_roundtrip "u").2.2.1 ⟨false, ""⟩ (by decide),
    (C5_roundtrip "info").2.2.2 ⟨false, 0⟩ 0 0 (by decide) (by decide)⟩

/-- C6 counterexample: setting the encoder flag before the timeformat
flag (both succeeding, with the timeformat then resolving to
`"iso8601"`) leaves the stored encoder on the baseline time encoding,
not ISO-8601 — the order of the two flags matters. -/
theorem C6_counterexample :
    (encoderValue.Set ⟨false, ""⟩ ⟨false, none, ""⟩ "json").2 = none ∧
    (timeformatValue.Set ⟨false, ""⟩ "iso8601").2 = none ∧
    timeformatValue.String (timeformatValue.Set ⟨false, ""⟩ "iso8601").1 =
      "iso8601" ∧
    Option.map Encoder.timeEncoder
        (encoderValue.Set ⟨false, ""⟩ ⟨false, none, ""⟩ "json").1.encoder =
      some .prodDefault ∧
    Option.map Encoder.timeEncoder
        (encoderValue.Set ⟨false, ""⟩ ⟨false, none, ""⟩ "json").1.encoder ≠
      some .iso8601 := by
  decide

/-- C6 (amended): encoder construction is a pure, total function of the
encoder kind and of the timeformat value read at construction time: the
ISO-8601 time encoder is used exactly when that value reads
`"iso8601"`, otherwise each encoder keeps its baseline time encoding;
because `encoderValue.Set` builds the encoder eagerly, a timeformat set
afterwards does not affect an already-stored encoder. -/
theorem C6_encoder_timeformat (tf : timeformatValue) :
    (timeformatValue.String tf = "iso8601" →
        (jsonEncoder tf).timeEncoder = .iso8601 ∧
        (consoleEncoder tf).timeEncoder = .iso8601) ∧
    (timeformatValue.String tf ≠ "iso8601" →
        (jsonEncoder tf).timeEncoder = .prodDefault ∧
        (consoleEncoder tf).timeEncoder = .devDefault) := by
  constructor
  · intro h
    constructor <;>
      simp [jsonEncoder, consoleEncoder, Encoder.timeEncoder, h]
  · intro h
    constructor <;>
      simp [jsonEncoder, consoleEncoder, Encoder.timeEncoder, if_neg h,
        NewProductionEncoderConfig, NewDevelopmentEncoderConfig]

/-- C6 witness: both encoders at the two timeformat resolutions. -/
theorem C6_encoder_timeformat_witness :
    ((jsonEncoder ⟨true, "iso8601"⟩).timeEncoder = .iso8601 ∧
      (consoleEncoder ⟨true, "iso8601"⟩).timeEncoder = .iso8601) ∧
    ((jsonEncoder ⟨true, "unix"⟩).timeEncoder = .prodDefault ∧
      (consoleEncoder ⟨true, "unix"⟩).timeEncoder = .devDefault) :=
  ⟨(C6_encoder_timeformat ⟨true, "iso8601"⟩).1 (by decide),
    (C6_encoder_timeformat ⟨true, "unix"⟩).2 (by decide)⟩
